import Mathlib

/-!
Verification development for the collaborative presence layer
(`src/components/realtime/remote-cursors.tsx` and the socket context).

The client-side registry of remote users is a JS `Map` keyed by
`data.socketId`.  Because inbound `cursor-changed` payloads are partial
objects whose fields (including `socketId`) may be absent, keys are
modelled as `Option String` and stored records as records of optional
fields.  `Map.set` replaces the value of an existing key in place and
appends new keys at the end, which the association-list `setEntry` below
reproduces.
-/

/-- 2D cursor coordinate, the `pos : {x, y}` object of the source. -/
structure Pos where
  x : Int
  y : Int
deriving DecidableEq, Repr

/-- Full user record, the `User` type of `contexts/socketio`. -/
structure User where
  socketId : String
  name : String
  color : String
  pos : Pos
  location : String
  flag : String
deriving DecidableEq, Repr

/-- A possibly-partial user object as delivered by a `cursor-changed`
event: every field may be absent (not an own property of the JS object). -/
structure UserUpdate where
  socketId : Option String := none
  name : Option String := none
  color : Option String := none
  pos : Option Pos := none
  location : Option String := none
  flag : Option String := none
deriving DecidableEq, Repr

/-- The users `Map` of the socket context, as an insertion-ordered
association list.  Keys are `Option String` because the source keys the
map by `data.socketId`, which may be `undefined`. -/
abbrev Registry := List (Option String × UserUpdate)

/-- `Map.get`: value stored at a key, if present. -/
def getEntry : Registry → Option String → Option UserUpdate
  | [], _ => none
  | (k, v) :: rest, key => if k = key then some v else getEntry rest key

/-- `Map.set`: replace the value of an existing key in place, else append. -/
def setEntry : Registry → Option String → UserUpdate → Registry
  | [], key, v => [(key, v)]
  | (k, w) :: rest, key, v =>
      if k = key then (key, v) :: rest else (k, w) :: setEntry rest key v

/-- JS object spread `{...prev, ...data}` on one field: the update's
field wins when present (an own property), else the base's is kept. -/
def mergeField {α : Type} (update base : Option α) : Option α :=
  match update with
  | some v => some v
  | none => base

/-- Shallow merge `{...prev, ...data}` of two partial user objects. -/
def mergeUser (prev upd : UserUpdate) : UserUpdate :=
  { socketId := mergeField upd.socketId prev.socketId
    name := mergeField upd.name prev.name
    color := mergeField upd.color prev.color
    pos := mergeField upd.pos prev.pos
    location := mergeField upd.location prev.location
    flag := mergeField upd.flag prev.flag }

/-- The `cursor-changed` handler (remote-cursors.tsx lines 32-46): if the
key `data.socketId` is unseen, insert `{...data}`; else store
`{...prev.get(data.socketId), ...data}`. -/
def cursorChanged (m : Registry) (data : UserUpdate) : Registry :=
  match getEntry m data.socketId with
  | none => setEntry m data.socketId data
  | some prev => setEntry m data.socketId (mergeUser prev data)

/-- Widening of a full user record to the stored shape, the `{...user}`
copy made by the `users-updated` handler. -/
def toUpdate (u : User) : UserUpdate :=
  { socketId := some u.socketId, name := some u.name, color := some u.color
    pos := some u.pos, location := some u.location, flag := some u.flag }

/-- The `users-updated` handler (remote-cursors.tsx lines 49-55): builds a
fresh map from the snapshot and installs it, ignoring the prior registry. -/
def usersUpdated (_prev : Registry) (data : List User) : Registry :=
  data.foldl (fun m u => setEntry m (some u.socketId) (toUpdate u)) []

/-- Key set of the registry (the `Map`'s keys, in insertion order). -/
def keys (m : Registry) : List (Option String) := m.map Prod.fst

/-- Rendering filter (remote-cursors.tsx lines 79-80):
`Array.from(users.values()).filter(user => user.socketId !== socket?.id)`. -/
def renderedUsers (m : Registry) (selfId : Option String) : List UserUpdate :=
  (m.map Prod.snd).filter (fun u => u.socketId ≠ selfId)

/-- Modelled from the spec: the `useThrottle` hook's source file is not
under `src/`, so its trailing-edge throttle is taken from §4.4: at most
one underlying send per `interval`, carrying the most recent call's
arguments at the moment the interval elapses.  State is the pending
window: its elapse time together with the latest coordinates seen.
`acc` accumulates the coordinates actually sent. -/
def throttleGo (interval : Nat) :
    Option (Nat × Pos) → List (Nat × Pos) → List Pos → List Pos
  | none, [], acc => acc
  | some (_, p), [], acc => acc ++ [p]
  | none, (t, c) :: rest, acc => throttleGo interval (some (t + interval, c)) rest acc
  | some (dl, p), (t, c) :: rest, acc =>
      if dl ≤ t then throttleGo interval (some (t + interval, c)) rest (acc ++ [p])
      else throttleGo interval (some (dl, c)) rest acc

/-- Modelled from the spec: run the throttled publisher on a
time-stamped list of calls; the result lists the coordinates of the
underlying sends, in order. -/
def throttleRun (interval : Nat) (calls : List (Nat × Pos)) : List Pos :=
  throttleGo interval none calls []

/-- The listener-registration guard (remote-cursors.tsx line 29):
`if (typeof window === "undefined" || !socket || isMobile) return;`
followed by `socket.on("cursor-changed", ...)` and
`socket.on("users-updated", ...)`.  Returns the event names registered. -/
def registerHandlers (windowDefined socketPresent isMobile : Bool) : List String :=
  if !windowDefined || !socketPresent || isMobile then []
  else ["cursor-changed", "users-updated"]

/-- The mouse-move publish path (remote-cursors.tsx lines 71-74): the
effect returns early on mobile, otherwise each movement reaches the
200 ms-throttled publisher. -/
def mouseMoveEmits (isMobile : Bool) (moves : List (Nat × Pos)) : List Pos :=
  if isMobile then [] else throttleRun 200 moves

/-- Message truncation (remote-cursors.tsx lines 139-141):
`lastMsgContent.slice(0, 30) + (lastMsgContent.length > 30 ? "..." : "")`.
Message content is modelled as a list of characters. -/
def textSlice (content : List Char) : List Char :=
  content.take 30 ++ (if content.length > 30 then ['.', '.', '.'] else [])

/-- Bubble display duration (remote-cursors.tsx line 143):
`Math.min(4000, Math.max(textSlice.length * 100, 1000))`. -/
def timeToRead (content : List Char) : Nat :=
  min 4000 (max ((textSlice content).length * 100) 1000)

/-- The spec's duration formula, stated in its own words (§4.5):
`clamp(displayedText.length * 100ms, 1000ms, 4000ms)`. -/
def clampSpec (displayedLen : Nat) : Nat :=
  max 1000 (min 4000 (displayedLen * 100))

/-- Message-bubble UI state of one `Cursor`: the displayed text and the
deadlines of all pending `setTimeout` clear callbacks.  The source's
message effect (lines 136-152) schedules a clear timer but returns no
cleanup, so earlier timers stay pending. -/
structure BubbleState where
  msgText : List Char
  clearDeadlines : List Nat
deriving DecidableEq, Repr

/-- A qualifying message for this cursor arrives at time `now`
(remote-cursors.tsx lines 136-151): the truncated text is shown and a
clear timer is scheduled `timeToRead` later; pending timers are kept,
because the effect has no cleanup that would cancel them. -/
def bubbleOnMessage (s : BubbleState) (now : Nat) (content : List Char) : BubbleState :=
  { msgText := textSlice content
    clearDeadlines := s.clearDeadlines ++ [now + timeToRead content] }

/-- Time advances to `now`: every pending clear timer whose deadline has
been reached fires, setting `msgText` to the empty string. -/
def bubbleAdvance (s : BubbleState) (now : Nat) : BubbleState :=
  if s.clearDeadlines.any (fun d => d ≤ now) then
    { msgText := [], clearDeadlines := s.clearDeadlines.filter (fun d => !(d ≤ now)) }
  else s

/-- Tooltip UI state of one `Cursor`: `showText` and the deadline of the
single pending fade-out timer, if any (the tooltip effect's cleanup
always cancels the previous one). -/
structure TooltipState where
  showText : Bool
  fadeOutDeadline : Option Nat
deriving DecidableEq, Repr

/-- Events driving the tooltip state (remote-cursors.tsx lines 123-133
and 166-167): a change of the effect dependencies `x`/`y` (position) or
`msgText`, and the hover handlers. -/
inductive TooltipEvent where
  | posChange (t : Nat)
  | msgTextChange (t : Nat)
  | enter (t : Nat)
  | leave (t : Nat)
deriving DecidableEq, Repr

/-- The pending fade-out timer fires once its deadline is reached:
`setShowText(false)` (remote-cursors.tsx lines 126-128). -/
def tooltipAdvance (s : TooltipState) (now : Nat) : TooltipState :=
  match s.fadeOutDeadline with
  | none => s
  | some d => if d ≤ now then { showText := false, fadeOutDeadline := none } else s

/-- A run of the tooltip effect at time `now`: the cleanup cancels the
previous timer, `setShowText(true)` runs, and a fresh 3000 ms timer is
installed. -/
def tooltipEffect (now : Nat) : TooltipState :=
  { showText := true, fadeOutDeadline := some (now + 3000) }

/-- One event is processed at its arrival time: any timer due by then has
already fired, then the handler runs.  `onMouseEnter`/`onMouseLeave` only
call `setShowText` and touch no timer; dependency changes rerun the
effect. -/
def tooltipStep (s : TooltipState) (e : TooltipEvent) : TooltipState :=
  match e with
  | .posChange t => tooltipEffect t
  | .msgTextChange t => tooltipEffect t
  | .enter t => { tooltipAdvance s t with showText := true }
  | .leave t => { tooltipAdvance s t with showText := false }

/-- A `cursor-changed` payload carrying only a position, with no
`socketId` field. -/
def malformedDelta : UserUpdate := { pos := some ⟨5, 7⟩ }

/-- Concrete registry record used to instantiate the merge theorem. -/
def c1prev : UserUpdate :=
  { socketId := some "a1", name := some "Ann", color := some "red"
    pos := some ⟨1, 2⟩, location := some "home", flag := some "fr" }

/-- Concrete incremental position update for the same id. -/
def c1upd : UserUpdate := { socketId := some "a1", pos := some ⟨9, 9⟩ }

/-- Concrete one-entry registry holding `c1prev`. -/
def c1map : Registry := [(some "a1", c1prev)]

/-- Concrete registry used to instantiate the self-exclusion theorem. -/
def c9map : Registry :=
  [(some "me", { socketId := some "me", name := some "Me" }),
   (some "b2", { socketId := some "b2", name := some "Bob" })]

/-- The remote record of `c9map` that survives the rendering filter. -/
def c9user : UserUpdate := { socketId := some "b2", name := some "Bob" }

/-- First message of the timer-stacking scenario: 2 characters, so its
clear timer runs `max(200, 1000) = 1000` ms. -/
def c5msg1 : List Char := ['h', 'i']

/-- Second message of the timer-stacking scenario: 40 characters, shown
truncated to 33, so its clear timer runs 3300 ms. -/
def c5msg2 : List Char := List.replicate 40 'a'

/-- The bubble state after `c5msg1` at 0 ms, `c5msg2` at 500 ms, and time
advancing to 1000 ms. -/
def c5state : BubbleState :=
  bubbleAdvance (bubbleOnMessage (bubbleOnMessage ⟨[], []⟩ 0 c5msg1) 500 c5msg2) 1000

theorem getEntry_setEntry_self (m : Registry) (k : Option String) (v : UserUpdate) :
    getEntry (setEntry m k v) k = some v := by
  induction m with
  | nil => simp [setEntry, getEntry]
  | cons e rest ih =>
    obtain ⟨k0, v0⟩ := e
    by_cases h : k0 = k
    · simp [setEntry, h, getEntry]
    · simp [setEntry, h, getEntry, ih]

theorem mem_keys_setEntry (m : Registry) (k : Option String) (v : UserUpdate)
    (q : Option String) : q ∈ keys (setEntry m k v) ↔ q = k ∨ q ∈ keys m := by
  induction m with
  | nil => simp [setEntry, keys]
  | cons e rest ih =>
    obtain ⟨k0, v0⟩ := e
    by_cases h : k0 = k
    · subst h
      have hset : setEntry ((k0, v0) :: rest) k0 v = (k0, v) :: rest := by
        simp [setEntry]
      rw [hset]
      simp only [keys, List.map_cons, List.mem_cons]
      tauto
    · have hset : setEntry ((k0, v0) :: rest) k v = (k0, v0) :: setEntry rest k v := by
        simp [setEntry, h]
      rw [hset]
      simp only [keys, List.map_cons, List.mem_cons] at *
      rw [ih]
      tauto

/-- C1: applying the `cursor-changed` handler for an existing record
stores the shallow merge, in which every field absent from the update
keeps the prior record's value and every present field takes the
update's value. -/
theorem applyIncremental_preserves (m : Registry) (upd prev : UserUpdate)
    (h : getEntry m upd.socketId = some prev) :
    getEntry (cursorChanged m upd) upd.socketId = some (mergeUser prev upd)
    ∧ (upd.name = none → (mergeUser prev upd).name = prev.name)
    ∧ (∀ v, upd.name = some v → (mergeUser prev upd).name = some v)
    ∧ (upd.color = none → (mergeUser prev upd).color = prev.color)
    ∧ (∀ v, upd.color = some v → (mergeUser prev upd).color = some v)
    ∧ (upd.pos = none → (mergeUser prev upd).pos = prev.pos)
    ∧ (∀ v, upd.pos = some v → (mergeUser prev upd).pos = some v)
    ∧ (upd.location = none → (mergeUser prev upd).location = prev.location)
    ∧ (∀ v, upd.location = some v → (mergeUser prev upd).location = some v)
    ∧ (upd.flag = none → (mergeUser prev upd).flag = prev.flag)
    ∧ (∀ v, upd.flag = some v → (mergeUser prev upd).flag = some v) := by
  refine ⟨?_, ?_, ?_, ?_, ?_, ?_, ?_, ?_, ?_, ?_, ?_⟩
  · unfold cursorChanged
    rw [h]
    exact getEntry_setEntry_self m upd.socketId _
  all_goals
    first
    | (intro hn; simp [mergeUser, mergeField, hn])
    | (intro v hv; simp [mergeUser, mergeField, hv])

/-- Witness for C1 at a concrete registry and position-only update. -/
theorem applyIncremental_preserves_witness :
    getEntry (cursorChanged c1map c1upd) c1upd.socketId = some (mergeUser c1prev c1upd)
    ∧ (mergeUser c1prev c1upd).name = c1prev.name
    ∧ (mergeUser c1prev c1upd).pos = some ⟨9, 9⟩ :=
  ⟨(applyIncremental_preserves c1map c1upd c1prev rfl).1,
   (applyIncremental_preserves c1map c1upd c1prev rfl).2.1 rfl,
   (applyIncremental_preserves c1map c1upd c1prev rfl).2.2.2.2.2.2.1 ⟨9, 9⟩ rfl⟩

/-- C2: after the `users-updated` handler runs on snapshot `data`, the
registry's key set is exactly the set of socket ids occurring in `data`,
whatever the prior registry held. -/
theorem applySnapshot_keys_exact (prevMap : Registry) (data : List User)
    (k : Option String) :
    k ∈ keys (usersUpdated prevMap data) ↔ ∃ u ∈ data, k = some u.socketId := by
  unfold usersUpdated
  have hgen : ∀ (l : List User) (m0 : Registry),
      k ∈ keys (l.foldl (fun m u => setEntry m (some u.socketId) (toUpdate u)) m0)
      ↔ k ∈ keys m0 ∨ ∃ u ∈ l, k = some u.socketId := by
    intro l
    induction l with
    | nil => simp
    | cons u us ih =>
      intro m0
      simp only [List.foldl_cons]
      rw [ih, mem_keys_setEntry]
      constructor
      · rintro ((hk | hk) | ⟨w, hw, hk⟩)
        · exact Or.inr ⟨u, List.mem_cons_self u us, hk⟩
        · exact Or.inl hk
        · exact Or.inr ⟨w, List.mem_cons_of_mem u hw, hk⟩
      · rintro (hk | ⟨w, hw, hk⟩)
        · exact Or.inl (Or.inr hk)
        · rcases List.mem_cons.mp hw with rfl | hw
          · exact Or.inl (Or.inl hk)
          · exact Or.inr ⟨w, hw, hk⟩
  rw [hgen]
  simp [keys]

/-- C3: on a `cursor-changed` payload with no `socketId`, the handler
does not leave the registry unchanged: it inserts a record under the
`undefined` key (here `none`), exactly the corruption the spec forbids. -/
theorem malformed_incremental_inserts_undefined_key :
    cursorChanged [] malformedDelta = [(none, malformedDelta)]
    ∧ keys (cursorChanged [] malformedDelta) = [none]
    ∧ cursorChanged [] malformedDelta ≠ [] :=
  ⟨rfl, rfl, by decide⟩

/-- C9: every record surviving the rendering filter has a `socketId`
different from the local socket's id, so the local session is never
painted. -/
theorem rendered_excludes_self (m : Registry) (selfId : Option String)
    (u : UserUpdate) (h : u ∈ renderedUsers m selfId) : u.socketId ≠ selfId := by
  unfold renderedUsers at h
  have := List.of_mem_filter h
  simpa using this

/-- Witness for C9 on a two-entry registry containing the local user. -/
theorem rendered_excludes_self_witness : c9user.socketId ≠ some "me" :=
  rendered_excludes_self c9map (some "me") c9user (by decide)

theorem throttleGo_all_before (interval : Nat) (rest : List (Nat × Pos))
    (acc : List Pos) (dl : Nat) (p : Pos) (h : ∀ q ∈ rest, q.1 < dl) :
    throttleGo interval (some (dl, p)) rest acc
      = acc ++ [(rest.map Prod.snd).getLastD p] := by
  induction rest generalizing p with
  | nil => simp [throttleGo]
  | cons q rs ih =>
    obtain ⟨t, c⟩ := q
    have ht : t < dl := h (t, c) (List.mem_cons_self _ _)
    have hrs : ∀ q ∈ rs, q.1 < dl := fun q hq => h q (List.mem_cons_of_mem _ hq)
    rw [throttleGo, if_neg (Nat.not_le.mpr ht), ih c hrs, List.map_cons,
      List.getLastD_cons]

/-- C4: for calls `(t0, c0), ...` all landing inside one 200 ms window,
the throttled publisher performs exactly one underlying send, carrying
the coordinates of the last call. -/
theorem throttle_coalesces_window (t0 : Nat) (c0 : Pos) (rest : List (Nat × Pos))
    (h : ∀ q ∈ rest, q.1 < t0 + 200) :
    throttleRun 200 ((t0, c0) :: rest) = [(rest.map Prod.snd).getLastD c0] := by
  unfold throttleRun
  rw [throttleGo]
  exact throttleGo_all_before 200 rest [] (t0 + 200) c0 h

/-- Witness for C4: three calls inside one window yield one send with the
third call's coordinates. -/
theorem throttle_coalesces_window_witness :
    throttleRun 200 [(0, ⟨0, 0⟩), (50, ⟨1, 2⟩), (100, ⟨3, 4⟩)] = [⟨3, 4⟩] := by
  have := throttle_coalesces_window 0 ⟨0, 0⟩ [(50, ⟨1, 2⟩), (100, ⟨3, 4⟩)] (by decide)
  simpa using this

/-- C5: the message effect does not cancel the previous clear timer, so
timers stack: after a 2-character message at 0 ms and a 40-character
message at 500 ms, both deadlines 1000 and 3800 are pending, and at
1000 ms the first message's timer clears the second message's text even
though that message's own duration runs until 3800 ms. -/
theorem bubble_timers_stack :
    (bubbleOnMessage (bubbleOnMessage ⟨[], []⟩ 0 c5msg1) 500 c5msg2).clearDeadlines
      = [1000, 3800]
    ∧ c5state.msgText = []
    ∧ 1000 < 500 + timeToRead c5msg2 := by
  refine ⟨?_, ?_, by decide⟩ <;> decide

/-- C6 counterexample: a message of 35 characters is displayed truncated
to 33 characters, so its computed duration is 3300 ms, not the 3500 ms
the claim states. -/
theorem timeToRead_35_counterexample :
    timeToRead (List.replicate 35 'a') = 3300 ∧ (3300 : Nat) ≠ 3500 := by
  constructor <;> decide

/-- C6 (amended): the bubble duration is the clamp of the displayed
(truncated) text's length times 100 ms to [1000 ms, 4000 ms]; an
8-character message yields 1000 ms and a 35-character message, displayed
as 33 characters, yields 3300 ms. -/
theorem timeToRead_clamps_displayed_length :
    (∀ content : List Char, timeToRead content = clampSpec (textSlice content).length)
    ∧ timeToRead (List.replicate 8 'a') = 1000
    ∧ timeToRead (List.replicate 35 'a') = 3300 := by
  refine ⟨fun content => ?_, by decide, by decide⟩
  unfold timeToRead clampSpec
  omega

/-- C7: the displayed text is the content truncated to its first 30
characters, with the three-dot ellipsis appended exactly when the content
is longer than 30 characters; short content is displayed unmodified. -/
theorem textSlice_truncation (c : List Char) :
    (c.length ≤ 30 → textSlice c = c)
    ∧ (30 < c.length →
        textSlice c = c.take 30 ++ ['.', '.', '.'] ∧ (textSlice c).length = 33) := by
  constructor
  · intro h
    unfold textSlice
    rw [if_neg (by omega), List.take_of_length_le h, List.append_nil]
  · intro h
    unfold textSlice
    rw [if_pos (by omega)]
    refine ⟨rfl, ?_⟩
    simp only [List.length_append, List.length_take, List.length_cons, List.length_nil]
    omega

/-- Witness for C7 at a 20-character and a 45-character message. -/
theorem textSlice_truncation_witness :
    textSlice (List.replicate 20 'b') = List.replicate 20 'b'
    ∧ textSlice (List.replicate 45 'a') = (List.replicate 45 'a').take 30 ++ ['.', '.', '.'] :=
  ⟨(textSlice_truncation (List.replicate 20 'b')).1 (by decide),
   ((textSlice_truncation (List.replicate 45 'a')).2 (by decide)).1⟩

/-- C8 counterexample: pointer-enter is a qualifying event under the
claim, yet it neither cancels nor resets the fade-out timer: after a
position change at 0 ms and a pointer-enter at 2000 ms the tooltip is
visible, but the timer from the position change fires at 3000 ms and
hides it — only 1000 ms after the last qualifying event, not 3000 ms. -/
theorem tooltip_enter_no_reset_counterexample :
    (tooltipStep (tooltipStep ⟨false, none⟩ (TooltipEvent.posChange 0))
        (TooltipEvent.enter 2000)).showText = true
    ∧ (tooltipAdvance (tooltipStep (tooltipStep ⟨false, none⟩ (TooltipEvent.posChange 0))
        (TooltipEvent.enter 2000)) 3000).showText = false
    ∧ (3000 : Nat) < 2000 + 3000 := by
  refine ⟨?_, ?_, by decide⟩ <;> decide

/-- C8 (amended): a position or message-text change shows the tooltip and
replaces the pending timer with one expiring exactly 3000 ms later; the
timer hides the tooltip at its deadline and not before; pointer-leave
hides immediately; pointer-enter shows the tooltip but schedules no timer
and cancels none. -/
theorem tooltip_timer_behavior (s : TooltipState) (t u : Nat) :
    tooltipStep s (TooltipEvent.posChange t)
      = { showText := true, fadeOutDeadline := some (t + 3000) }
    ∧ tooltipStep s (TooltipEvent.msgTextChange t)
      = { showText := true, fadeOutDeadline := some (t + 3000) }
    ∧ (t + 3000 ≤ u →
        (tooltipAdvance (tooltipStep s (TooltipEvent.posChange t)) u).showText = false)
    ∧ (u < t + 3000 →
        tooltipAdvance (tooltipStep s (TooltipEvent.posChange t)) u
          = tooltipStep s (TooltipEvent.posChange t))
    ∧ (tooltipStep s (TooltipEvent.leave t)).showText = false
    ∧ (tooltipStep s (TooltipEvent.enter t)).fadeOutDeadline
        = (tooltipAdvance s t).fadeOutDeadline := by
  refine ⟨rfl, rfl, ?_, ?_, rfl, rfl⟩
  · intro hu
    simp [tooltipStep, tooltipEffect, tooltipAdvance, hu]
  · intro hu
    simp [tooltipStep, tooltipEffect, tooltipAdvance, Nat.not_le.mpr hu]

/-- Witness for C8's amended theorem: after a change at 100 ms the timer
fires at 3100 ms, and at 200 ms nothing has happened yet. -/
theorem tooltip_timer_behavior_witness :
    (tooltipAdvance (tooltipStep ⟨false, none⟩ (TooltipEvent.posChange 100)) 3100).showText
      = false
    ∧ tooltipAdvance (tooltipStep ⟨false, none⟩ (TooltipEvent.posChange 100)) 200
        = tooltipStep ⟨false, none⟩ (TooltipEvent.posChange 100) :=
  ⟨(tooltip_timer_behavior ⟨false, none⟩ 100 3100).2.2.1 (by decide),
   (tooltip_timer_behavior ⟨false, none⟩ 100 200).2.2.2.1 (by decide)⟩

/-- C10: on a mobile viewport the presence layer is inert: the listener
effect registers no transport handlers (whatever the window/socket
state), and the mouse-move effect performs no sends for any sequence of
pointer movements. -/
theorem mobile_inert (w s : Bool) (moves : List (Nat × Pos)) :
    registerHandlers w s true = [] ∧ mouseMoveEmits true moves = [] := by
  constructor
  · cases w <;> cases s <;> rfl
  · rfl
